import Mathlib

/-!
Verification of the balance-mutation and transaction-history subsystem of the
nutech-api service (src/index.js).

The definitions below are a shallow embedding of the handlers
* POST /topup                (src/index.js lines 349-412),
* POST /transaction          (src/index.js lines 414-488),
* GET  /transaction/history  (src/index.js lines 490-534),
and of the helper generateInvoiceNumber (src/index.js lines 581-594).

Modelling choices:

* Stored money columns are integers (`Money := Int`): every value this code
  writes into them is a `parseInt` result or a sum/difference of such.  The
  request's `top_up_amount` is a JavaScript number and is modelled as an
  exact rational (`Rat`), because the validation on line 355 accepts
  non-integer numbers such as 1.5; the raw value is what the history INSERT
  on line 391 receives as its `amount` parameter.  `parseInt` applied to
  such a number is `jsParseInt`.

* Each `await pool.query(...)` call is one atomic command (`DbCmd`) against
  the durable store.  node-postgres `pool.query` checks a connection out of
  the pool for that single statement only, so the `BEGIN` / `COMMIT`
  statements issued on lines 380/399 and 451/471 do not pin the neighbouring
  statements to a dedicated connection: they are modelled as commands with no
  effect on the durable store, and every data statement takes durable effect
  when it executes.  The handlers never issue a `ROLLBACK` statement at all
  (see `topup_trace_no_rollback` below).

* A store failure at the n-th query of a handler invocation is injected with
  `failAt = some n`: that `await pool.query(...)` throws, control jumps to
  the handler's `catch` block, which only logs and answers HTTP 500
  (lines 408-411 and 484-487).  The failed command appears in the trace of
  issued commands but has no effect on the store.
-/

/-- Transaction type column `trx_type` of `tbl_trx_history`
(`'TOPUP'` on line 393, `'PAYMENT'` on line 465). -/
inductive TrxType
  | TOPUP
  | PAYMENT
deriving DecidableEq

/-- Stored money values (balance values, tariffs, balance snapshots): the
integer-typed columns of the store.  Every value this code writes into them
is an integer (`parseInt` results and their sums/differences). -/
abbrev Money := Int

/-- One row of `tbl_balance`. -/
structure BalanceRow where
  balance_id : Nat
  user_id : Nat
  balance_value : Money
deriving DecidableEq

/-- One row of `tbl_trx_history` (the columns the core flow writes;
`created_by`/`modified_by` are the constant `'system'` and are omitted). -/
structure HistoryRow where
  balance_id : Nat
  invoice_number : String
  amount : Rat  -- the raw JavaScript number passed as the INSERT parameter
  balance_before : Money
  balance_after : Money
  trx_type : TrxType
  description : String
  created_date : Nat
deriving DecidableEq

/-- One row of `tbl_service`. -/
structure ServiceRow where
  service_code : String
  service_name : String
  service_tariff : Money
deriving DecidableEq

/-- The durable state of the PostgreSQL store. -/
structure Store where
  balances : List BalanceRow
  histories : List HistoryRow
  services : List ServiceRow
deriving DecidableEq

/-- JavaScript `parseInt` on the positive numeric values that reach it in the
top-up handler (line 377): truncation of the decimal rendering toward zero,
i.e. integer division of numerator by denominator.  JavaScript numbers that
carry the request's `top_up_amount` are modelled as exact rationals (`Rat`);
every concrete value considered here is exactly representable in binary
floating point, so no rounding is involved. -/
def jsParseInt (q : Rat) : Int := q.num / (q.den : Int)

/-- One `pool.query` statement issued by the handlers under scrutiny.
`rollback` is included so that its absence from every issued trace can be
stated; the source never issues it. -/
inductive DbCmd
  | selectBalance (user_id : Nat)
  | insertZeroBalance (user_id : Nat)
  | beginTxn
  | updateBalanceByUser (user_id : Nat) (newValue : Money)
  | updateBalanceById (balance_id : Nat) (newValue : Money)
  | insertHistory (row : HistoryRow)
  | commit
  | rollback
  | selectService (service_code : String)
deriving DecidableEq

/-- Key assigned by the `tbl_balance` insert on line 369 (a fresh serial). -/
def newBalanceId (st : Store) : Nat :=
  (st.balances.map (fun b => b.balance_id)).foldr max 0 + 1

/-- `UPDATE tbl_balance SET balance_value = $1 WHERE user_id = $2`
(line 383), effect on one row. -/
def updUser (uid : Nat) (v : Money) (b : BalanceRow) : BalanceRow :=
  if b.user_id == uid then { b with balance_value := v } else b

/-- `UPDATE tbl_balance SET balance_value = $1 WHERE balance_id = $2`
(line 455), effect on one row. -/
def updId (bid : Nat) (v : Money) (b : BalanceRow) : BalanceRow :=
  if b.balance_id == bid then { b with balance_value := v } else b

/-- Effect of one successfully executed statement on the durable store. -/
def applyCmd (st : Store) : DbCmd → Store
  | .selectBalance _ => st
  | .selectService _ => st
  | .insertZeroBalance uid =>
      { st with balances := st.balances ++ [⟨newBalanceId st, uid, 0⟩] }
  | .beginTxn => st
  | .updateBalanceByUser uid v =>
      { st with balances := st.balances.map (updUser uid v) }
  | .updateBalanceById bid v =>
      { st with balances := st.balances.map (updId bid v) }
  | .insertHistory row => { st with histories := st.histories ++ [row] }
  | .commit => st
  | .rollback => st

/-- Row 0 of `SELECT ... FROM tbl_balance WHERE user_id = $1`
(lines 364 and 429). -/
def lookupBalance (st : Store) (uid : Nat) : Option BalanceRow :=
  (st.balances.filter (fun b => b.user_id == uid)).head?

/-- Row 0 of `SELECT service_name, service_tariff FROM tbl_service WHERE
service_code = $1` (line 439). -/
def lookupService (st : Store) (code : String) : Option ServiceRow :=
  (st.services.filter (fun s => s.service_code == code)).head?

/-- Responses of POST /topup. -/
inductive TopupResult
  | invalidAmount          -- status "102", line 356
  | storeError             -- catch handler, HTTP 500, line 408
  | success (balance : Money)  -- line 401
deriving DecidableEq

/-- POST /topup (src/index.js lines 349-412).

Arguments: durable store, authenticated user id, the request's
`top_up_amount` (`none` models an absent field), the invoice number produced
by `generateInvoiceNumber()` on line 388, the `now()` timestamp, and the
failure-injection point.  Returns the response, the durable store after the
call, and the trace of issued statements.

Control flow mirrors the source: validation (355) issues no query; the
balance SELECT (364) and the zero-balance INSERT (369) run before `BEGIN`
(380); then UPDATE (383), history INSERT (391), `COMMIT` (399).  The `catch`
block (408) issues nothing. -/
def topup (st : Store) (uid : Nat) (top_up_amount : Option Rat) (inv : String)
    (now : Nat) (failAt : Option Nat) : TopupResult × Store × List DbCmd :=
  match top_up_amount with
  | none => (.invalidAmount, st, [])
  | some q =>
    -- line 355: `!top_up_amount || isNaN(top_up_amount) || top_up_amount <= 0`
    if q ≤ 0 then (.invalidAmount, st, [])
    else if failAt = some 0 then (.storeError, st, [.selectBalance uid])
    else
      match lookupBalance st uid with
      | some b =>
        -- line 366: currentBalance = userResult.rows[0].balance_value
        let currentBalance := b.balance_value
        -- line 377: parseInt(currentBalance) + parseInt(top_up_amount);
        -- parseInt on the integer-valued currentBalance is the identity
        let newBalance := currentBalance + jsParseInt q
        -- line 395: amount and balance_before are the raw values
        let row : HistoryRow :=
          ⟨b.balance_id, inv, q, currentBalance, newBalance, .TOPUP,
            "Top Up Balance", now⟩
        if failAt = some 1 then
          (.storeError, st, [.selectBalance uid, .beginTxn])
        else if failAt = some 2 then
          (.storeError, st,
            [.selectBalance uid, .beginTxn, .updateBalanceByUser uid newBalance])
        else
          let st2 := applyCmd st (.updateBalanceByUser uid newBalance)
          if failAt = some 3 then
            (.storeError, st2,
              [.selectBalance uid, .beginTxn, .updateBalanceByUser uid newBalance,
                .insertHistory row])
          else
            let st3 := applyCmd st2 (.insertHistory row)
            if failAt = some 4 then
              (.storeError, st3,
                [.selectBalance uid, .beginTxn, .updateBalanceByUser uid newBalance,
                  .insertHistory row, .commit])
            else
              (.success newBalance, st3,
                [.selectBalance uid, .beginTxn, .updateBalanceByUser uid newBalance,
                  .insertHistory row, .commit])
      | none =>
        -- lines 367-376: no row yet, create one with value 0 (before BEGIN)
        if failAt = some 1 then
          (.storeError, st, [.selectBalance uid, .insertZeroBalance uid])
        else
          let st1 := applyCmd st (.insertZeroBalance uid)
          let bid := newBalanceId st
          -- line 363/377: currentBalance stays 0 in this branch;
          -- parseInt(0) = 0
          let newBalance := (0 : Int) + jsParseInt q
          let row : HistoryRow :=
            ⟨bid, inv, q, 0, newBalance, .TOPUP, "Top Up Balance", now⟩
          if failAt = some 2 then
            (.storeError, st1,
              [.selectBalance uid, .insertZeroBalance uid, .beginTxn])
          else if failAt = some 3 then
            (.storeError, st1,
              [.selectBalance uid, .insertZeroBalance uid, .beginTxn,
                .updateBalanceByUser uid newBalance])
          else
            let st2 := applyCmd st1 (.updateBalanceByUser uid newBalance)
            if failAt = some 4 then
              (.storeError, st2,
                [.selectBalance uid, .insertZeroBalance uid, .beginTxn,
                  .updateBalanceByUser uid newBalance, .insertHistory row])
            else
              let st3 := applyCmd st2 (.insertHistory row)
              if failAt = some 5 then
                (.storeError, st3,
                  [.selectBalance uid, .insertZeroBalance uid, .beginTxn,
                    .updateBalanceByUser uid newBalance, .insertHistory row,
                    .commit])
              else
                (.success newBalance, st3,
                  [.selectBalance uid, .insertZeroBalance uid, .beginTxn,
                    .updateBalanceByUser uid newBalance, .insertHistory row,
                    .commit])

/-- Payload of a successful POST /transaction response (lines 473-483). -/
structure PaySuccess where
  invoice_number : String
  service_code : String
  service_name : String
  transaction_type : TrxType
  total_amount : Money
  created_on : Nat
deriving DecidableEq

/-- Responses of POST /transaction. -/
inductive PayResult
  | missingParam      -- status 201, line 421
  | noBalance         -- status 206, line 434
  | serviceNotFound   -- status 207, line 444
  | insufficient      -- status 208, line 448
  | storeError        -- catch handler, HTTP 500, line 484
  | success (data : PaySuccess)
deriving DecidableEq

/-- POST /transaction (src/index.js lines 414-488).

Control flow mirrors the source: `!service_code` check (420, an empty string
is falsy); balance SELECT (429); service SELECT (439); sufficiency check
`balance_value < service_tariff` (447) before `BEGIN` (451); UPDATE by
balance_id (455); history INSERT with description = service name (462-468);
`COMMIT` (471).  The `catch` block (484) issues nothing. -/
def payment (st : Store) (uid : Nat) (service_code : Option String) (inv : String)
    (now : Nat) (failAt : Option Nat) : PayResult × Store × List DbCmd :=
  match service_code with
  | none => (.missingParam, st, [])
  | some code =>
    if code = "" then (.missingParam, st, [])
    else if failAt = some 0 then (.storeError, st, [.selectBalance uid])
    else
      match lookupBalance st uid with
      | none => (.noBalance, st, [.selectBalance uid])
      | some b =>
        if failAt = some 1 then
          (.storeError, st, [.selectBalance uid, .selectService code])
        else
          match lookupService st code with
          | none =>
            (.serviceNotFound, st, [.selectBalance uid, .selectService code])
          | some s =>
            if b.balance_value < s.service_tariff then
              (.insufficient, st, [.selectBalance uid, .selectService code])
            else
              -- line 454: newBalance = balance_value - service_tariff
              let newBalance := b.balance_value - s.service_tariff
              -- line 467: the INSERT's amount parameter is service_tariff
              let row : HistoryRow :=
                ⟨b.balance_id, inv, (s.service_tariff : Rat), b.balance_value,
                  newBalance, .PAYMENT, s.service_name, now⟩
              if failAt = some 2 then
                (.storeError, st,
                  [.selectBalance uid, .selectService code, .beginTxn])
              else if failAt = some 3 then
                (.storeError, st,
                  [.selectBalance uid, .selectService code, .beginTxn,
                    .updateBalanceById b.balance_id newBalance])
              else
                let st2 := applyCmd st (.updateBalanceById b.balance_id newBalance)
                if failAt = some 4 then
                  (.storeError, st2,
                    [.selectBalance uid, .selectService code, .beginTxn,
                      .updateBalanceById b.balance_id newBalance,
                      .insertHistory row])
                else
                  let st3 := applyCmd st2 (.insertHistory row)
                  if failAt = some 5 then
                    (.storeError, st3,
                      [.selectBalance uid, .selectService code, .beginTxn,
                        .updateBalanceById b.balance_id newBalance,
                        .insertHistory row, .commit])
                  else
                    (.success ⟨inv, code, s.service_name, .PAYMENT,
                        s.service_tariff, now⟩,
                      st3,
                      [.selectBalance uid, .selectService code, .beginTxn,
                        .updateBalanceById b.balance_id newBalance,
                        .insertHistory row, .commit])


/-! ### Interleaved execution of two POST /transaction requests

The payment handler performs its balance SELECT (line 429) and sufficiency
check (line 447) before `BEGIN` (line 451), with no row lock and no
compare-and-swap; two requests for the same user may interleave at every
`await pool.query(...)` boundary.  `payStep` is one such step of the
handler, `runSched` interleaves two requests under an explicit schedule. -/

/-- Terminal outcome of one interleaved POST /transaction request. -/
inductive PayOutcome
  | noBalance
  | serviceNotFound
  | insufficient
  | success
deriving DecidableEq

/-- Per-request local state of an in-flight POST /transaction: the program
counter (index of the next `await pool.query` in source order) and the local
variables of the handler (lines 436 and 445). -/
structure PayLocal where
  pc : Nat
  balance_id : Nat
  balance_value : Money
  service_name : String
  service_tariff : Money
  outcome : Option PayOutcome
deriving DecidableEq

/-- Local state of a request that has not yet executed any query. -/
def startLocal : PayLocal := ⟨0, 0, 0, "", 0, none⟩

/-- One `await pool.query(...)` step of POST /transaction, in source order:
pc 0 = balance SELECT (line 429); pc 1 = service SELECT (line 439) followed
synchronously by the pure sufficiency check (line 447); pc 2 = BEGIN (451);
pc 3 = balance UPDATE (455); pc 4 = history INSERT (462); pc 5 = COMMIT
(471).  The store argument is the durable store at the moment the step
runs; other requests may run between steps. -/
def payStep (uid : Nat) (code : String) (inv : String) (now : Nat)
    (st : Store) (l : PayLocal) : Store × PayLocal :=
  match l.outcome with
  | some _ => (st, l)
  | none =>
    match l.pc with
    | 0 =>
      match lookupBalance st uid with
      | none => (st, { l with outcome := some .noBalance })
      | some b =>
        (st, { l with pc := 1, balance_id := b.balance_id,
                      balance_value := b.balance_value })
    | 1 =>
      match lookupService st code with
      | none => (st, { l with outcome := some .serviceNotFound })
      | some s =>
        if l.balance_value < s.service_tariff then
          (st, { l with outcome := some .insufficient })
        else
          (st, { l with pc := 2, service_name := s.service_name,
                        service_tariff := s.service_tariff })
    | 2 => (applyCmd st .beginTxn, { l with pc := 3 })
    | 3 =>
      (applyCmd st
        (.updateBalanceById l.balance_id (l.balance_value - l.service_tariff)),
       { l with pc := 4 })
    | 4 =>
      (applyCmd st
        (.insertHistory ⟨l.balance_id, inv, (l.service_tariff : Rat),
          l.balance_value, l.balance_value - l.service_tariff, .PAYMENT,
          l.service_name, now⟩),
       { l with pc := 5 })
    | _ => (applyCmd st .commit, { l with outcome := some .success })

/-- State of two concurrently executing POST /transaction requests
(A and B) sharing one durable store. -/
structure TwoPay where
  store : Store
  reqA : PayLocal
  reqB : PayLocal
deriving DecidableEq

/-- Interleave two POST /transaction requests of user `uid` under an
explicit schedule: `true` runs the next step of request A, `false` of
request B. -/
def runSched (uid : Nat) (codeA codeB invA invB : String) (nowA nowB : Nat) :
    List Bool → TwoPay → TwoPay
  | [], s => s
  | c :: rest, s =>
    if c then
      let p := payStep uid codeA invA nowA s.store s.reqA
      runSched uid codeA codeB invA invB nowA nowB rest ⟨p.1, p.2, s.reqB⟩
    else
      let p := payStep uid codeB invB nowB s.store s.reqB
      runSched uid codeA codeB invA invB nowA nowB rest ⟨p.1, s.reqA, p.2⟩

/-! ### GET /transaction/history (lines 490-534) -/

/-- One row of the SELECT list on lines 499-504: invoice_number,
trx_type as transaction_type, description, amount as total_amount,
created_date as created_on. -/
structure HistoryView where
  invoice_number : String
  transaction_type : TrxType
  description : String
  total_amount : Rat
  created_on : Nat
deriving DecidableEq

/-- The join of lines 505-508: history rows whose balance row belongs to
`uid`, projected to the SELECT list. -/
def userHistoryRows (st : Store) (uid : Nat) : List HistoryView :=
  (st.histories.filter (fun h =>
      st.balances.any (fun b => b.balance_id == h.balance_id && b.user_id == uid))).map
    (fun h => ⟨h.invoice_number, h.trx_type, h.description, h.amount, h.created_date⟩)

/-- Insert a row into a list kept in descending `created_on` order
(model of the `ORDER BY created_date DESC` on line 509). -/
def insertDesc (x : HistoryView) : List HistoryView → List HistoryView
  | [] => [x]
  | y :: ys =>
    if y.created_on ≤ x.created_on then x :: y :: ys else y :: insertDesc x ys

/-- Sort by `created_on` descending (`ORDER BY created_date DESC`,
line 509). -/
def sortDesc : List HistoryView → List HistoryView
  | [] => []
  | x :: xs => insertDesc x (sortDesc xs)

/-- Responses of GET /transaction/history. -/
inductive HistoryResult
  | notFound                     -- status 208, line 523
  | ok (rows : List HistoryView) -- line 525
deriving DecidableEq

/-- GET /transaction/history (src/index.js lines 490-534).  `limit` and
`offset` are the parsed query parameters, `none` when absent (line 495-496).
Pagination (`LIMIT $2 OFFSET $3`) is appended only when both are present
(line 515); the 404 fires when the query returns zero rows (line 522). -/
def historyHandler (st : Store) (uid : Nat) (limit offset : Option Nat) :
    HistoryResult :=
  let sorted := sortDesc (userHistoryRows st uid)
  let rows :=
    match limit, offset with
    | some l, some o => (sorted.drop o).take l
    | _, _ => sorted
  if rows = [] then .notFound else .ok rows

/-! ### generateInvoiceNumber (lines 581-594) -/

/-- The fields `generateInvoiceNumber` reads off `new Date()`:
`getFullYear`, `getMonth` (0-based), `getDate`, `getHours`, `getMinutes`,
`getSeconds`. -/
structure JsDate where
  year : Nat
  month0 : Nat
  day : Nat
  hour : Nat
  minute : Nat
  second : Nat
deriving DecidableEq

/-- `String.prototype.padStart(2, "0")` for the non-empty digit strings used
here (lines 583-588). -/
def padStart2 (s : String) : String :=
  if s.length < 2 then "0" ++ s else s

/-- One lowercase hexadecimal digit as produced by
`Buffer.toString("hex")` (line 591). -/
def lowHexDigit (n : Nat) : Char :=
  if n < 10 then Char.ofNat (48 + n) else Char.ofNat (87 + n)

/-- The two lowercase hex digits of one byte (`Buffer.toString("hex")`
zero-pads each byte to two digits). -/
def byteHex (b : Nat) : List Char := [lowHexDigit (b / 16), lowHexDigit (b % 16)]

/-- `String.prototype.toUpperCase()` on one ASCII character. -/
def jsToUpperChar (c : Char) : Char :=
  if 'a' ≤ c ∧ c ≤ 'z' then Char.ofNat (c.toNat - 32) else c

/-- `crypto.randomBytes(2).toString("hex").toUpperCase()` (line 591), as a
function of the two random bytes. -/
def randomPartOf (b1 b2 : Nat) : String :=
  String.mk ((byteHex b1 ++ byteHex b2).map jsToUpperChar)

/-- The `${yyyy}${mm}${dd}${hh}${min}${sec}` component (line 590):
year unpadded (4 digits for realistic dates), the rest zero-padded to two
digits; `mm` is `getMonth() + 1` (line 584). -/
def dateTimePart (d : JsDate) : String :=
  toString d.year ++ padStart2 (toString (d.month0 + 1))
    ++ padStart2 (toString d.day) ++ padStart2 (toString d.hour)
    ++ padStart2 (toString d.minute) ++ padStart2 (toString d.second)

/-- generateInvoiceNumber (src/index.js lines 581-594), as a function of the
current date and the two random bytes. -/
def generateInvoiceNumber (d : JsDate) (b1 b2 : Nat) : String :=
  "INV" ++ dateTimePart d ++ "-" ++ randomPartOf b1 b2

/-- Uppercase hexadecimal digit test. -/
def isUpperHex (c : Char) : Bool :=
  c.isDigit || ('A' ≤ c && c ≤ 'F')

/-- Descending order by creation timestamp (newest first). -/
def DescBy (l : List HistoryView) : Prop :=
  l.Pairwise (fun a b => b.created_on ≤ a.created_on)

/-! ### Helper lemmas -/

/-- The top-up handler never issues a `ROLLBACK` statement: its `catch`
block (lines 408-411) only logs and answers HTTP 500. -/
theorem topup_trace_no_rollback (st : Store) (uid : Nat) (amt : Option Rat)
    (inv : String) (now : Nat) (failAt : Option Nat) :
    DbCmd.rollback ∉ (topup st uid amt inv now failAt).2.2 := by
  unfold topup
  rcases amt with _ | q
  · simp
  · repeat' split
    all_goals simp

/-- The payment handler never issues a `ROLLBACK` statement: its `catch`
block (lines 484-487) only logs and answers HTTP 500. -/
theorem payment_trace_no_rollback (st : Store) (uid : Nat) (sc : Option String)
    (inv : String) (now : Nat) (failAt : Option Nat) :
    DbCmd.rollback ∉ (payment st uid sc inv now failAt).2.2 := by
  unfold payment
  rcases sc with _ | code
  · simp
  · repeat' split
    all_goals simp

theorem updUser_user_id (uid : Nat) (v : Money) (b : BalanceRow) :
    (updUser uid v b).user_id = b.user_id := by
  unfold updUser; split <;> rfl

theorem updId_user_id (bid : Nat) (v : Money) (b : BalanceRow) :
    (updId bid v b).user_id = b.user_id := by
  unfold updId; split <;> rfl

theorem filter_userEq_map (f : BalanceRow → BalanceRow)
    (hf : ∀ b, (f b).user_id = b.user_id) (l : List BalanceRow) (uid : Nat) :
    (l.map f).filter (fun b => b.user_id == uid)
      = (l.filter (fun b => b.user_id == uid)).map f := by
  induction l with
  | nil => rfl
  | cons b bs ih =>
    by_cases h : b.user_id = uid
    · simp [List.filter_cons, hf b, h, ih]
    · simp [List.filter_cons, hf b, h, ih]

/-- The UPDATE by balance_id (line 455) commutes with the balance lookup. -/
theorem lookupBalance_updId (st : Store) (uid bid : Nat) (v : Money) :
    lookupBalance (applyCmd st (.updateBalanceById bid v)) uid
      = (lookupBalance st uid).map (updId bid v) := by
  unfold lookupBalance applyCmd
  rw [filter_userEq_map (updId bid v) (updId_user_id bid v), List.head?_map]

/-- The UPDATE by user_id (line 383) commutes with the balance lookup. -/
theorem lookupBalance_updUser (st : Store) (uid u : Nat) (v : Money) :
    lookupBalance (applyCmd st (.updateBalanceByUser u v)) uid
      = (lookupBalance st uid).map (updUser u v) := by
  unfold lookupBalance applyCmd
  rw [filter_userEq_map (updUser u v) (updUser_user_id u v), List.head?_map]

/-- After the zero-balance INSERT (line 369) the user has a balance row. -/
theorem lookupBalance_insertZero (st : Store) (uid : Nat)
    (h : lookupBalance st uid = none) :
    lookupBalance (applyCmd st (.insertZeroBalance uid)) uid
      = some ⟨newBalanceId st, uid, 0⟩ := by
  unfold lookupBalance at h ⊢
  unfold applyCmd
  rw [List.head?_eq_none_iff] at h
  simp [List.filter_append, h]

/-- Row 0 of the balance SELECT belongs to the queried user. -/
theorem lookupBalance_user_eq {st : Store} {uid : Nat} {b : BalanceRow}
    (h : lookupBalance st uid = some b) : b.user_id = uid := by
  unfold lookupBalance at h
  cases hf : st.balances.filter (fun x => x.user_id == uid) with
  | nil => rw [hf] at h; simp at h
  | cons x xs =>
    rw [hf] at h
    simp only [List.head?_cons, Option.some.injEq] at h
    have hx : x ∈ st.balances.filter (fun y => y.user_id == uid) := by
      rw [hf]; exact List.mem_cons_self x xs
    have hpx := (List.mem_filter.mp hx).2
    rw [h] at hpx
    simpa using hpx

/-- Equation for a successful POST /transaction (no injected failure):
result, resulting store and issued trace, spelled out. -/
theorem payment_success_eq (st : Store) (uid : Nat) (code inv : String)
    (now : Nat) (b : BalanceRow) (s : ServiceRow)
    (hb : lookupBalance st uid = some b) (hs : lookupService st code = some s)
    (hcode : code ≠ "") (hge : ¬ b.balance_value < s.service_tariff) :
    payment st uid (some code) inv now none =
      (.success ⟨inv, code, s.service_name, .PAYMENT, s.service_tariff, now⟩,
       ⟨st.balances.map (updId b.balance_id (b.balance_value - s.service_tariff)),
        st.histories ++
          [⟨b.balance_id, inv, (s.service_tariff : Rat), b.balance_value,
            b.balance_value - s.service_tariff, .PAYMENT, s.service_name, now⟩],
        st.services⟩,
       [.selectBalance uid, .selectService code, .beginTxn,
        .updateBalanceById b.balance_id (b.balance_value - s.service_tariff),
        .insertHistory ⟨b.balance_id, inv, (s.service_tariff : Rat),
          b.balance_value, b.balance_value - s.service_tariff, .PAYMENT,
          s.service_name, now⟩, .commit]) := by
  simp [payment, hb, hs, hcode, hge, applyCmd]

/-- Equation for a successful POST /topup with an existing balance row
(no injected failure). -/
theorem topup_success_eq (st : Store) (uid : Nat) (q : Rat) (inv : String)
    (now : Nat) (b : BalanceRow)
    (hb : lookupBalance st uid = some b) (hq : ¬ q ≤ 0) :
    topup st uid (some q) inv now none =
      (.success (b.balance_value + jsParseInt q),
       ⟨st.balances.map (updUser uid (b.balance_value + jsParseInt q)),
        st.histories ++
          [⟨b.balance_id, inv, q, b.balance_value,
            b.balance_value + jsParseInt q, .TOPUP, "Top Up Balance", now⟩],
        st.services⟩,
       [.selectBalance uid, .beginTxn,
        .updateBalanceByUser uid (b.balance_value + jsParseInt q),
        .insertHistory ⟨b.balance_id, inv, q, b.balance_value,
          b.balance_value + jsParseInt q, .TOPUP, "Top Up Balance", now⟩,
        .commit]) := by
  simp [topup, hb, hq, applyCmd]

/-- Equation for a successful POST /topup with no pre-existing balance row
(no injected failure): the zero row is created first, then updated. -/
theorem topup_noRow_success_eq (st : Store) (uid : Nat) (q : Rat) (inv : String)
    (now : Nat) (hb : lookupBalance st uid = none) (hq : ¬ q ≤ 0) :
    topup st uid (some q) inv now none =
      (.success (jsParseInt q),
       ⟨(st.balances ++ [(⟨newBalanceId st, uid, 0⟩ : BalanceRow)]).map
          (updUser uid (jsParseInt q)),
        st.histories ++
          [⟨newBalanceId st, inv, q, 0, jsParseInt q, .TOPUP,
            "Top Up Balance", now⟩],
        st.services⟩,
       [.selectBalance uid, .insertZeroBalance uid, .beginTxn,
        .updateBalanceByUser uid (jsParseInt q),
        .insertHistory ⟨newBalanceId st, inv, q, 0, jsParseInt q, .TOPUP,
          "Top Up Balance", now⟩,
        .commit]) := by
  simp [topup, hb, hq, applyCmd]

/-- `parseInt` is the identity on integer-valued amounts. -/
theorem jsParseInt_intCast (n : Int) : jsParseInt (n : Rat) = n := by
  simp [jsParseInt, Rat.num_intCast, Rat.den_intCast]

/-! ### Sortedness of the history listing -/

theorem insertDesc_perm (x : HistoryView) (l : List HistoryView) :
    (insertDesc x l).Perm (x :: l) := by
  induction l with
  | nil => simp [insertDesc]
  | cons y ys ih =>
    unfold insertDesc
    split
    · exact List.Perm.refl _
    · exact (ih.cons y).trans (List.Perm.swap x y ys)

theorem sortDesc_perm (l : List HistoryView) : (sortDesc l).Perm l := by
  induction l with
  | nil => simp [sortDesc]
  | cons x xs ih => exact (insertDesc_perm x (sortDesc xs)).trans (ih.cons x)

theorem insertDesc_sorted (x : HistoryView) (l : List HistoryView)
    (hl : DescBy l) : DescBy (insertDesc x l) := by
  induction l with
  | nil => simp [insertDesc, DescBy]
  | cons y ys ih =>
    rw [DescBy, List.pairwise_cons] at hl
    obtain ⟨hy, hys⟩ := hl
    unfold insertDesc
    split
    · rename_i hxy
      rw [DescBy, List.pairwise_cons]
      refine ⟨?_, List.pairwise_cons.mpr ⟨hy, hys⟩⟩
      intro b hb
      rcases List.mem_cons.mp hb with rfl | hb2
      · exact hxy
      · exact le_trans (hy b hb2) hxy
    · rename_i hxy
      rw [DescBy, List.pairwise_cons]
      refine ⟨?_, ih hys⟩
      intro b hb
      rcases List.mem_cons.mp ((insertDesc_perm x ys).mem_iff.mp hb) with rfl | hb2
      · omega
      · exact hy b hb2

theorem sortDesc_sorted (l : List HistoryView) : DescBy (sortDesc l) := by
  induction l with
  | nil => simp [sortDesc, DescBy]
  | cons x xs ih => exact insertDesc_sorted x (sortDesc xs) ih

/-! ### Invoice number helpers -/

/-- Every component fed to `padStart(2, "0")` here is at most two digits
(months ≤ 12, days ≤ 31, hours ≤ 23, minutes/seconds ≤ 59), so the padded
rendering is exactly two digits. -/
theorem padStart2_length : ∀ n < 61, (padStart2 (toString n)).length = 2 := by
  decide

set_option maxRecDepth 4000 in
/-- The rendered random part of one byte consists of uppercase hex digits. -/
theorem byteHex_upper : ∀ b < 256,
    ((byteHex b).map jsToUpperChar).all isUpperHex = true := by
  decide

set_option maxRecDepth 4000 in
/-- Uppercased hex digits are distinct for distinct inputs below 16. -/
theorem upperHexDigit_inj : ∀ x < 16, ∀ y < 16,
    jsToUpperChar (lowHexDigit x) = jsToUpperChar (lowHexDigit y) → x = y := by
  decide

/-- The random suffix determines both random bytes: it carries the full
two bytes of randomness. -/
theorem randomPartOf_inj (b1 b2 c1 c2 : Nat) (h1 : b1 < 256) (h2 : b2 < 256)
    (h3 : c1 < 256) (h4 : c2 < 256)
    (h : randomPartOf b1 b2 = randomPartOf c1 c2) : b1 = c1 ∧ b2 = c2 := by
  replace h := congrArg String.data h
  simp only [randomPartOf, byteHex, List.cons_append, List.nil_append,
    List.map_cons, List.map_nil, List.cons.injEq, and_true] at h
  obtain ⟨e1, e2, e3, e4⟩ := h
  have d1 : b1 / 16 = c1 / 16 :=
    upperHexDigit_inj _ (by omega) _ (by omega) e1
  have d2 : b1 % 16 = c1 % 16 :=
    upperHexDigit_inj _ (by omega) _ (by omega) e2
  have d3 : b2 / 16 = c2 / 16 :=
    upperHexDigit_inj _ (by omega) _ (by omega) e3
  have d4 : b2 % 16 = c2 % 16 :=
    upperHexDigit_inj _ (by omega) _ (by omega) e4
  omega

theorem lookupBalance_insertHistory (st : Store) (uid : Nat) (row : HistoryRow) :
    lookupBalance (applyCmd st (.insertHistory row)) uid = lookupBalance st uid := rfl

/-! ### Claims -/

/-- C1: the claim says a failure after the atomic unit has begun and before
commit is rolled back, leaving Balance and History in their pre-call state.
The code has no rollback: neither handler ever issues a `ROLLBACK` statement
(the `catch` blocks on lines 408-411 and 484-487 only log and answer 500),
and since every statement runs through `pool.query` on its own pooled
connection, the balance UPDATE that already executed stays durable.
Concretely: a top-up of 500 over balance 1000 whose history INSERT (the 4th
query) fails leaves the balance at 1500 with no history row — a partial
state. -/
theorem no_rollback_on_failure :
    (∀ st uid amt inv now failAt,
        DbCmd.rollback ∉ (topup st uid amt inv now failAt).2.2)
    ∧ (∀ st uid sc inv now failAt,
        DbCmd.rollback ∉ (payment st uid sc inv now failAt).2.2)
    ∧ topup ⟨[⟨10, 1, 1000⟩], [], []⟩ 1 (some 500) "INV1" 9 (some 3)
        = (.storeError, ⟨[⟨10, 1, 1500⟩], [], []⟩,
           [.selectBalance 1, .beginTxn, .updateBalanceByUser 1 1500,
            .insertHistory ⟨10, "INV1", 500, 1000, 1500, .TOPUP,
              "Top Up Balance", 9⟩]) :=
  ⟨topup_trace_no_rollback, payment_trace_no_rollback, by decide⟩

/-- C2: the claim says two interleaved mutations on the same balance never
both read the same pre-mutation value and both commit.  The code reads the
balance (line 429) before `BEGIN` (line 451) with no row lock and no
compare-and-swap, so the schedule below — A and B both SELECT balance 3000,
then each passes the `balance_value < service_tariff` check and runs its
UPDATE/INSERT/COMMIT — has both payments of tariff 2000 commit: 4000 is
charged against a 3000 balance (final stored balance 1000, a lost update and
a joint overdraft). -/
theorem concurrent_payments_both_commit :
    (runSched 1 "PULSA" "PULSA" "INVA" "INVB" 100 101
        [true, false, true, true, true, true, true,
         false, false, false, false, false]
        ⟨⟨[⟨10, 1, 3000⟩], [], [⟨"PULSA", "Pulsa", 2000⟩]⟩,
          startLocal, startLocal⟩).reqA.outcome = some .success
    ∧ (runSched 1 "PULSA" "PULSA" "INVA" "INVB" 100 101
        [true, false, true, true, true, true, true,
         false, false, false, false, false]
        ⟨⟨[⟨10, 1, 3000⟩], [], [⟨"PULSA", "Pulsa", 2000⟩]⟩,
          startLocal, startLocal⟩).reqB.outcome = some .success
    ∧ (lookupBalance (runSched 1 "PULSA" "PULSA" "INVA" "INVB" 100 101
        [true, false, true, true, true, true, true,
         false, false, false, false, false]
        ⟨⟨[⟨10, 1, 3000⟩], [], [⟨"PULSA", "Pulsa", 2000⟩]⟩,
          startLocal, startLocal⟩).store 1).map (fun b => b.balance_value)
        = some 1000
    ∧ ((runSched 1 "PULSA" "PULSA" "INVA" "INVB" 100 101
        [true, false, true, true, true, true, true,
         false, false, false, false, false]
        ⟨⟨[⟨10, 1, 3000⟩], [], [⟨"PULSA", "Pulsa", 2000⟩]⟩,
          startLocal, startLocal⟩).store.histories.map (fun h => h.balance_before))
        = [3000, 3000]
    ∧ ((runSched 1 "PULSA" "PULSA" "INVA" "INVB" 100 101
        [true, false, true, true, true, true, true,
         false, false, false, false, false]
        ⟨⟨[⟨10, 1, 3000⟩], [], [⟨"PULSA", "Pulsa", 2000⟩]⟩,
          startLocal, startLocal⟩).store.histories.map (fun h => h.amount))
        = [2000, 2000]
    ∧ (3000 : Money) < 2000 + 2000 := by
  decide

/-- C3: the claim says the zero-value balance row created on a first top-up
is inside the same atomic transaction as the mutation and never survives a
failed top-up.  In the code the creating INSERT (line 369) executes before
`BEGIN` (line 380), on its own auto-committed statement: for every failure
injected at or after `BEGIN` (query index 2..5), the response is an error
yet the user's freshly created balance row is durably present, and the trace
shows the creation strictly before `BEGIN`. -/
theorem balance_creation_survives_failed_topup
    (st : Store) (uid : Nat) (q : Rat) (inv : String) (now : Nat) (j : Nat)
    (hnone : lookupBalance st uid = none) (hq : ¬ q ≤ 0)
    (h2 : 2 ≤ j) (h5 : j ≤ 5) :
    (topup st uid (some q) inv now (some j)).1 = .storeError
    ∧ (lookupBalance (topup st uid (some q) inv now (some j)).2.1 uid).isSome
        = true
    ∧ (topup st uid (some q) inv now (some j)).2.2.take 3
        = [.selectBalance uid, .insertZeroBalance uid, .beginTxn] := by
  have hz := lookupBalance_insertZero st uid hnone
  interval_cases j
  · refine ⟨?_, ?_, ?_⟩ <;>
      simp [topup, hnone, hq, hz]
  · refine ⟨?_, ?_, ?_⟩ <;>
      simp [topup, hnone, hq, hz]
  · refine ⟨?_, ?_, ?_⟩ <;>
      simp [topup, hnone, hq, hz, lookupBalance_updUser]
  · refine ⟨?_, ?_, ?_⟩ <;>
      simp [topup, hnone, hq, hz, lookupBalance_updUser,
        lookupBalance_insertHistory]

/-- Witness for C3: empty store, user 7, amount 500, failure at the history
INSERT (query index 4). -/
theorem balance_creation_survives_failed_topup_witness :
    (topup ⟨[], [], []⟩ 7 (some 500) "I" 9 (some 4)).1 = .storeError
    ∧ (lookupBalance (topup ⟨[], [], []⟩ 7 (some 500) "I" 9 (some 4)).2.1 7).isSome
        = true
    ∧ (topup ⟨[], [], []⟩ 7 (some 500) "I" 9 (some 4)).2.2.take 3
        = [.selectBalance 7, .insertZeroBalance 7, .beginTxn] :=
  balance_creation_survives_failed_topup ⟨[], [], []⟩ 7 500 "I" 9 4
    (by decide) (by decide) (by decide) (by decide)

/-- C4 (amended): for committed operations with *integer* amounts the ledger
invariant holds — a TOPUP row satisfies `balance_after - balance_before =
amount` (both when a balance row already exists and on the first top-up,
where the zero-value row is created and `balance_before = 0`), a PAYMENT row
satisfies `balance_before - balance_after = amount`, and `balance_after`
equals the stored balance value at commit time.  (As stated over all
accepted inputs the claim fails: the validation on line 355 also accepts
non-integer amounts, see
`history_row_invariant_fails_on_fractional_topup`.) -/
theorem history_row_invariant :
    (∀ (st : Store) (uid : Nat) (n : Int) (inv : String) (now : Nat)
        (b : BalanceRow),
      lookupBalance st uid = some b → 0 < n →
        (topup st uid (some ((n : Int) : Rat)) inv now none).2.1.histories
            = st.histories ++
              [⟨b.balance_id, inv, ((n : Int) : Rat), b.balance_value,
                b.balance_value + n, .TOPUP, "Top Up Balance", now⟩]
        ∧ (((b.balance_value + n) - b.balance_value : Int) : Rat)
            = ((n : Int) : Rat)
        ∧ (lookupBalance (topup st uid (some ((n : Int) : Rat)) inv now none).2.1
              uid).map (fun r => r.balance_value)
            = some (b.balance_value + n))
    ∧ (∀ (st : Store) (uid : Nat) (n : Int) (inv : String) (now : Nat),
      lookupBalance st uid = none → 0 < n →
        (topup st uid (some ((n : Int) : Rat)) inv now none).2.1.histories
            = st.histories ++
              [⟨newBalanceId st, inv, ((n : Int) : Rat), 0, n, .TOPUP,
                "Top Up Balance", now⟩]
        ∧ ((n - 0 : Int) : Rat) = ((n : Int) : Rat)
        ∧ (lookupBalance (topup st uid (some ((n : Int) : Rat)) inv now none).2.1
              uid).map (fun r => r.balance_value)
            = some n)
    ∧ (∀ (st : Store) (uid : Nat) (code inv : String) (now : Nat)
        (b : BalanceRow) (s : ServiceRow),
      lookupBalance st uid = some b → lookupService st code = some s →
      code ≠ "" → ¬ b.balance_value < s.service_tariff →
        (payment st uid (some code) inv now none).2.1.histories
            = st.histories ++
              [⟨b.balance_id, inv, (s.service_tariff : Rat), b.balance_value,
                b.balance_value - s.service_tariff, .PAYMENT, s.service_name,
                now⟩]
        ∧ ((b.balance_value - (b.balance_value - s.service_tariff) : Int) : Rat)
            = (s.service_tariff : Rat)
        ∧ (lookupBalance (payment st uid (some code) inv now none).2.1
              uid).map (fun r => r.balance_value)
            = some (b.balance_value - s.service_tariff)) := by
  constructor
  · intro st uid n inv now b hb hn
    have hq : ¬ ((n : Int) : Rat) ≤ 0 := by
      simp only [not_le]
      exact_mod_cast hn
    have he := topup_success_eq st uid ((n : Int) : Rat) inv now b hb hq
    rw [jsParseInt_intCast] at he
    refine ⟨by rw [he], by push_cast; ring, ?_⟩
    rw [he]
    show ((st.balances.map (updUser uid (b.balance_value + n))).filter
        (fun x => x.user_id == uid)).head?.map (fun r => r.balance_value) = _
    rw [filter_userEq_map _ (updUser_user_id _ _), List.head?_map]
    have hb' : (st.balances.filter (fun x => x.user_id == uid)).head? = some b := hb
    rw [hb']
    simp [updUser, lookupBalance_user_eq hb]
  constructor
  · intro st uid n inv now hnone hn
    have hq : ¬ ((n : Int) : Rat) ≤ 0 := by
      simp only [not_le]
      exact_mod_cast hn
    have he := topup_noRow_success_eq st uid ((n : Int) : Rat) inv now hnone hq
    rw [jsParseInt_intCast] at he
    refine ⟨by rw [he], by push_cast; ring, ?_⟩
    rw [he]
    show (((st.balances ++ [(⟨newBalanceId st, uid, 0⟩ : BalanceRow)]).map
        (updUser uid n)).filter (fun x => x.user_id == uid)).head?.map
        (fun r => r.balance_value) = some n
    rw [filter_userEq_map _ (updUser_user_id _ _), List.filter_append]
    have h0 : st.balances.filter (fun x => x.user_id == uid) = [] := by
      have hn' := hnone
      unfold lookupBalance at hn'
      rwa [List.head?_eq_none_iff] at hn'
    rw [h0]
    simp [updUser]
  · intro st uid code inv now b s hb hs hcode hge
    have he := payment_success_eq st uid code inv now b s hb hs hcode hge
    refine ⟨by rw [he], by push_cast; ring, ?_⟩
    rw [he]
    show ((st.balances.map
          (updId b.balance_id (b.balance_value - s.service_tariff))).filter
        (fun x => x.user_id == uid)).head?.map (fun r => r.balance_value) = _
    rw [filter_userEq_map _ (updId_user_id _ _), List.head?_map]
    have hb' : (st.balances.filter (fun x => x.user_id == uid)).head? = some b := hb
    rw [hb']
    simp [updId]

/-- Witness for C4: the TOPUP part at balance 100 + 500 and the PAYMENT part
at balance 5000 - 3000 (Scenario 2). -/
theorem history_row_invariant_witness :
    (topup ⟨[⟨10, 1, 100⟩], [], []⟩ 1 (some ((500 : Int) : Rat)) "I" 9
        none).2.1.histories
      = [⟨10, "I", ((500 : Int) : Rat), 100, 600, .TOPUP, "Top Up Balance", 9⟩]
    ∧ (topup ⟨[], [], []⟩ 1 (some ((5000 : Int) : Rat)) "I" 9
        none).2.1.histories
      = [⟨1, "I", ((5000 : Int) : Rat), 0, 5000, .TOPUP, "Top Up Balance", 9⟩]
    ∧ (payment ⟨[⟨10, 1, 5000⟩], [], [⟨"X", "Svc X", 3000⟩]⟩ 1 (some "X") "I" 9
        none).2.1.histories
      = [⟨10, "I", ((3000 : Money) : Rat), 5000, 2000, .PAYMENT, "Svc X", 9⟩] := by
  have h1 := (history_row_invariant.1 ⟨[⟨10, 1, 100⟩], [], []⟩ 1 500 "I" 9
    ⟨10, 1, 100⟩ (by decide) (by decide)).1
  have h0 := (history_row_invariant.2.1 ⟨[], [], []⟩ 1 5000 "I" 9
    (by decide) (by decide)).1
  have h2 := (history_row_invariant.2.2
    ⟨[⟨10, 1, 5000⟩], [], [⟨"X", "Svc X", 3000⟩]⟩
    1 "X" "I" 9 ⟨10, 1, 5000⟩ ⟨"X", "Svc X", 3000⟩
    (by decide) (by decide) (by decide) (by decide)).1
  refine ⟨by simpa using h1, by simpa [newBalanceId] using h0, by simpa using h2⟩

/-- C4 counterexample: the top-up validation (line 355) accepts the
non-integer amount 1.5; the committed operation writes a history row with
amount 1.5 (line 395) while the balance changes by `parseInt(1.5) = 1`
(line 377), so `balance_after - balance_before = amount` fails on a
committed row. -/
theorem history_row_invariant_fails_on_fractional_topup :
    (topup ⟨[⟨10, 1, 100⟩], [], []⟩ 1 (some (mkRat 3 2)) "I" 9 none).1
        = .success 101
    ∧ ¬ (∀ r ∈ (topup ⟨[⟨10, 1, 100⟩], [], []⟩ 1 (some (mkRat 3 2)) "I" 9
          none).2.1.histories,
        ((r.balance_after - r.balance_before : Int) : Rat) = r.amount) := by
  decide

/-- C5: a payment whose tariff strictly exceeds the current balance fails
with status 208 (`Saldo tidak cukup`, line 448) before `BEGIN`: the store is
returned unchanged and only the two SELECTs were issued — no mutation, no
history row. -/
theorem payment_insufficient_funds_no_mutation
    (st : Store) (uid : Nat) (code inv : String) (now : Nat)
    (b : BalanceRow) (s : ServiceRow)
    (hb : lookupBalance st uid = some b) (hs : lookupService st code = some s)
    (hcode : code ≠ "") (hlt : b.balance_value < s.service_tariff) :
    payment st uid (some code) inv now none
      = (.insufficient, st, [.selectBalance uid, .selectService code]) := by
  simp [payment, hb, hs, hcode, hlt]

/-- Witness for C5 at Scenario 3: balance 1000, tariff 5000. -/
theorem payment_insufficient_funds_no_mutation_witness :
    payment ⟨[⟨10, 1, 1000⟩], [], [⟨"X", "Svc X", 5000⟩]⟩ 1 (some "X") "I" 9 none
      = (.insufficient, ⟨[⟨10, 1, 1000⟩], [], [⟨"X", "Svc X", 5000⟩]⟩,
         [.selectBalance 1, .selectService "X"]) :=
  payment_insufficient_funds_no_mutation
    ⟨[⟨10, 1, 1000⟩], [], [⟨"X", "Svc X", 5000⟩]⟩ 1 "X" "I" 9
    ⟨10, 1, 1000⟩ ⟨"X", "Svc X", 5000⟩ (by decide) (by decide) (by decide)
    (by decide)

/-- C6 (amended): a top-up whose amount is absent, zero or negative fails
with status "102" (line 356) and performs no store access at all — the store
is unchanged and the trace of issued statements is empty.  (As originally
stated over all non-positive-integer amounts the claim fails: positive
non-integer amounts are accepted, see `topup_accepts_fractional_amount`.) -/
theorem topup_invalid_amount_no_store_access
    (st : Store) (uid : Nat) (inv : String) (now : Nat) (failAt : Option Nat) :
    topup st uid none inv now failAt = (.invalidAmount, st, [])
    ∧ ∀ q : Rat, q ≤ 0 →
        topup st uid (some q) inv now failAt = (.invalidAmount, st, []) := by
  refine ⟨rfl, ?_⟩
  intro q hq
  simp [topup, hq]

/-- Witness for C6 at amount 0. -/
theorem topup_invalid_amount_no_store_access_witness :
    topup ⟨[], [], []⟩ 1 (some 0) "I" 9 none = (.invalidAmount, ⟨[], [], []⟩, []) :=
  (topup_invalid_amount_no_store_access ⟨[], [], []⟩ 1 "I" 9 none).2 0 (by decide)

/-- C6 counterexample: 1.5 is not a positive integer, yet the validation on
line 355 (`!top_up_amount || isNaN(top_up_amount) || top_up_amount <= 0`)
lets it through: the top-up succeeds (balance 100 becomes 101) and the store
is accessed (a non-empty statement trace), instead of failing with
InvalidAmount with no store access. -/
theorem topup_accepts_fractional_amount :
    (topup ⟨[⟨10, 1, 100⟩], [], []⟩ 1 (some (mkRat 3 2)) "I" 9 none).1
        = .success 101
    ∧ (topup ⟨[⟨10, 1, 100⟩], [], []⟩ 1 (some (mkRat 3 2)) "I" 9 none).2.2 ≠ []
    ∧ (mkRat 3 2).den ≠ 1 := by
  decide

/-- C7: a successful payment deducts exactly the tariff from the balance,
appends exactly one PAYMENT history row with amount = tariff and
description = service name, and responds with the generated invoice number,
the service name, the amount charged and the history row's creation
timestamp (lines 450-483). -/
theorem payment_success_contract
    (st : Store) (uid : Nat) (code inv : String) (now : Nat)
    (b : BalanceRow) (s : ServiceRow)
    (hb : lookupBalance st uid = some b) (hs : lookupService st code = some s)
    (hcode : code ≠ "") (hge : ¬ b.balance_value < s.service_tariff) :
    (payment st uid (some code) inv now none).1
        = .success ⟨inv, code, s.service_name, .PAYMENT, s.service_tariff, now⟩
    ∧ (payment st uid (some code) inv now none).2.1.histories
        = st.histories ++
          [⟨b.balance_id, inv, (s.service_tariff : Rat), b.balance_value,
            b.balance_value - s.service_tariff, .PAYMENT, s.service_name, now⟩]
    ∧ (lookupBalance (payment st uid (some code) inv now none).2.1 uid).map
          (fun r => r.balance_value)
        = some (b.balance_value - s.service_tariff) := by
  have he := payment_success_eq st uid code inv now b s hb hs hcode hge
  refine ⟨by rw [he], by rw [he], ?_⟩
  rw [he]
  show ((st.balances.map
        (updId b.balance_id (b.balance_value - s.service_tariff))).filter
      (fun x => x.user_id == uid)).head?.map (fun r => r.balance_value) = _
  rw [filter_userEq_map _ (updId_user_id _ _), List.head?_map]
  have hb' : (st.balances.filter (fun x => x.user_id == uid)).head? = some b := hb
  rw [hb']
  simp [updId]

/-- Witness for C7 at Scenario 2: balance 5000, tariff 3000. -/
theorem payment_success_contract_witness :
    (payment ⟨[⟨10, 1, 5000⟩], [], [⟨"X", "Svc X", 3000⟩]⟩ 1 (some "X") "I" 9
        none).1
      = .success ⟨"I", "X", "Svc X", .PAYMENT, 3000, 9⟩ :=
  (payment_success_contract ⟨[⟨10, 1, 5000⟩], [], [⟨"X", "Svc X", 3000⟩]⟩ 1
    "X" "I" 9 ⟨10, 1, 5000⟩ ⟨"X", "Svc X", 3000⟩
    (by decide) (by decide) (by decide) (by decide)).1

/-- C8: the history listing returns the user's history rows sorted by
creation timestamp descending (newest first, `ORDER BY created_date DESC`,
line 509) as a permutation of the joined row set; pagination is applied when
both `limit` and `offset` are provided (line 515) as LIMIT/OFFSET on that
ordered sequence; and a user with zero history rows gets the 404 `Belum ada
transaksi` response (line 522) whatever the pagination parameters. -/
theorem history_listing_contract (st : Store) (uid : Nat) (l o : Nat)
    (lo oo : Option Nat) :
    DescBy (sortDesc (userHistoryRows st uid))
    ∧ (sortDesc (userHistoryRows st uid)).Perm (userHistoryRows st uid)
    ∧ (userHistoryRows st uid ≠ [] →
        historyHandler st uid none none = .ok (sortDesc (userHistoryRows st uid)))
    ∧ historyHandler st uid (some l) (some o)
        = (if ((sortDesc (userHistoryRows st uid)).drop o).take l = []
           then .notFound
           else .ok (((sortDesc (userHistoryRows st uid)).drop o).take l))
    ∧ (userHistoryRows st uid = [] → historyHandler st uid lo oo = .notFound) := by
  refine ⟨sortDesc_sorted _, sortDesc_perm _, ?_, ?_, ?_⟩
  · intro hne
    have hsne : sortDesc (userHistoryRows st uid) ≠ [] := by
      intro h0
      exact hne (List.Perm.eq_nil (h0 ▸ (sortDesc_perm (userHistoryRows st uid)).symm))
    simp [historyHandler, hsne]
  · simp [historyHandler]
  · intro h0
    have : sortDesc (userHistoryRows st uid) = [] := by rw [h0]; rfl
    rcases lo with _ | l' <;> rcases oo with _ | o' <;>
      simp [historyHandler, this]

/-- Witness for C8: a user with no history rows gets 404. -/
theorem history_listing_contract_witness :
    historyHandler ⟨[], [], []⟩ 1 none none = .notFound :=
  (history_listing_contract ⟨[], [], []⟩ 1 0 0 none none).2.2.2.2 rfl

/-- C9: every generated invoice number is the fixed prefix `INV`, followed
by the timestamp in the order year, month (`getMonth() + 1`), day, hour,
minute, second — each non-year component zero-padded to exactly two digits —
followed by `-` and by the rendering of the two random bytes as four
uppercase hexadecimal digits; the suffix determines both random bytes, so it
carries the full two bytes of randomness (lines 581-594). -/
theorem invoice_number_structure (d : JsDate) (b1 b2 : Nat)
    (hm : d.month0 < 12) (hd : d.day ≤ 31) (hh : d.hour < 24)
    (hmin : d.minute < 60) (hs : d.second < 60)
    (h1 : b1 < 256) (h2 : b2 < 256) :
    generateInvoiceNumber d b1 b2
        = "INV" ++ (toString d.year ++ padStart2 (toString (d.month0 + 1))
            ++ padStart2 (toString d.day) ++ padStart2 (toString d.hour)
            ++ padStart2 (toString d.minute) ++ padStart2 (toString d.second))
          ++ "-" ++ randomPartOf b1 b2
    ∧ (padStart2 (toString (d.month0 + 1))).length = 2
    ∧ (padStart2 (toString d.day)).length = 2
    ∧ (padStart2 (toString d.hour)).length = 2
    ∧ (padStart2 (toString d.minute)).length = 2
    ∧ (padStart2 (toString d.second)).length = 2
    ∧ (randomPartOf b1 b2).length = 4
    ∧ (randomPartOf b1 b2).data.all isUpperHex = true
    ∧ (∀ c1 c2, c1 < 256 → c2 < 256 →
        randomPartOf b1 b2 = randomPartOf c1 c2 → b1 = c1 ∧ b2 = c2) := by
  refine ⟨rfl, padStart2_length _ (by omega), padStart2_length _ (by omega),
    padStart2_length _ (by omega), padStart2_length _ (by omega),
    padStart2_length _ (by omega), ?_, ?_, ?_⟩
  · simp [randomPartOf, byteHex, String.length]
  · have u1 := byteHex_upper b1 h1
    have u2 := byteHex_upper b2 h2
    simp only [randomPartOf, List.map_append, List.all_append, u1, u2,
      Bool.and_self]
  · intro c1 c2 hc1 hc2 h
    exact randomPartOf_inj b1 b2 c1 c2 h1 h2 hc1 hc2 h

/-- Witness for C9 at the source's own example date and bytes
(`INV20251105153428-A4F2`, line 593): the suffix is four uppercase hex
digits. -/
theorem invoice_number_structure_witness :
    (randomPartOf 164 242).data.all isUpperHex = true :=
  (invoice_number_structure ⟨2025, 10, 5, 15, 34, 28⟩ 164 242 (by decide)
    (by decide) (by decide) (by decide) (by decide) (by decide)
    (by decide)).2.2.2.2.2.2.2.1

/-- C10: when exactly one of `limit`/`offset` is provided, the condition on
line 515 (`limit !== null && offset !== null`) is false, so no pagination is
appended: the response is identical to the request with neither parameter. -/
theorem history_single_param_ignored (st : Store) (uid : Nat) :
    (∀ l, historyHandler st uid (some l) none = historyHandler st uid none none)
    ∧ (∀ o, historyHandler st uid none (some o) = historyHandler st uid none none) :=
  ⟨fun _ => rfl, fun _ => rfl⟩

/-- Witness for C1: the trace of a concrete failed top-up (history INSERT
fails after the balance UPDATE) contains no ROLLBACK. -/
theorem no_rollback_on_failure_witness :
    DbCmd.rollback ∉ (topup ⟨[⟨10, 1, 1000⟩], [], []⟩ 1 (some 500) "INV1" 9
      (some 3)).2.2 :=
  no_rollback_on_failure.1 ⟨[⟨10, 1, 1000⟩], [], []⟩ 1 (some 500) "INV1" 9 (some 3)
